import Mathlib

/-!
Verification of the evaluation-extraction pipeline of `generateReport.py`.

The model is a shallow embedding of the pure core of the program:

* text is modelled as `List Char` (ASCII is the intended alphabet of the
  labels and patterns; Python's Unicode-aware case folding and `\s`/`\d`
  classes coincide with the ASCII behaviour modelled here on that alphabet);
* the external text-generation capability (`generate`, wrapping the
  transformers model) is an opaque parameter
  `gen : List Char → Except Unit (List Char)`; `Except.error` models the
  Python exception raised by the capability;
* the two `re.search` calls of `get_ai_summary_and_rating` are embedded as
  explicit leftmost scans; their backtracking behaviour (greedy `\s*`,
  lazy capture with lookahead, greedy `\d{1,2}`) is unfolded into the
  deterministic scan the pattern denotes;
* the reportlab collaborators (`SimpleDocTemplate`, `Paragraph`, `Spacer`,
  `Table`) are opaque sinks; a built document is modelled as the ordered
  list of `Block`s appended to `content`.  The chart paragraph (which the
  source renders by `json.dumps` of a hard-coded dict) is modelled as a
  `Block.chart` node carrying the semantically relevant payload of that
  dict: the chart type, the labels and the dataset values; the remaining
  entries of the dict (colors, axis options) are fixed rendering constants.
-/

set_option maxRecDepth 8000

namespace GenReport

/-- Shorthand: the character list of a string literal. -/
def chars (s : String) : List Char := s.data

/-- Python's `\s` / `str.strip` whitespace class, on the ASCII alphabet. -/
def pySpace (c : Char) : Bool :=
  c = ' ' || c = '\t' || c = '\n' || c = '\r' || c = '\x0b' || c = '\x0c'

/-- Greedy `\s*`: drop the maximal whitespace run at the front. -/
def dropSpaces (l : List Char) : List Char := l.dropWhile pySpace

/-- Python `str.lstrip()`. -/
def pyStripLeft (l : List Char) : List Char := l.dropWhile pySpace

/-- Python `str.rstrip()`. -/
def pyStripRight (l : List Char) : List Char := (l.reverse.dropWhile pySpace).reverse

/-- Python `str.strip()`. -/
def pyStrip (l : List Char) : List Char := pyStripRight (pyStripLeft l)

/-- Python `str.capitalize()`: first character upper-cased, rest lower-cased. -/
def pyCapitalize : List Char → List Char
  | [] => []
  | c :: t => c.toUpper :: t.map Char.toLower

/-- Case-insensitive literal match at the front of `s` (re.IGNORECASE);
returns the remaining suffix on success. -/
def stripPrefixCI : List Char → List Char → Option (List Char)
  | [], s => some s
  | _ :: _, [] => none
  | p :: ps, c :: cs => if p.toLower = c.toLower then stripPrefixCI ps cs else none

/-- Case-sensitive literal match at the front of `s`;
returns the remaining suffix on success. -/
def dropLit : List Char → List Char → Option (List Char)
  | [], s => some s
  | _ :: _, [] => none
  | p :: ps, c :: cs => if p = c then dropLit ps cs else none

/-- `pat` occurs (case-sensitively) somewhere inside `l`. -/
def hasSeg (pat : List Char) : List Char → Bool
  | [] => pat.isEmpty
  | c :: t => (dropLit pat (c :: t)).isSome || hasSeg pat t

/-- One element of the input conversation, as the validation loop of
`generate_report` sees it: either not a dict at all, or a dict whose
`role` / `content` keys are present (`some`) or absent (`none`).
Values are strings; the source only ever reads these two keys. -/
inductive PyMsg
  | notDict
  | dict (role : Option (List Char)) (content : Option (List Char))
deriving DecidableEq

/-- `msg['role']` as used on the prompt-building line.  A `KeyError` /
`TypeError` is impossible there because `generate_report` validates every
element first; the unreachable cases are mapped to `[]`. -/
def msgRole : PyMsg → List Char
  | .notDict => []
  | .dict r _ => r.getD []

/-- `msg['content']` as used on the prompt-building line (see `msgRole`). -/
def msgContent : PyMsg → List Char
  | .notDict => []
  | .dict _ c => c.getD []

/-- `msg.get("role", "Unknown")` of the transcript-breakdown loop.
The non-dict case cannot be reached past validation. -/
def bdRole : PyMsg → List Char
  | .notDict => chars "Unknown"
  | .dict r _ => r.getD (chars "Unknown")

/-- `msg.get("content", "")` of the transcript-breakdown loop. -/
def bdContent : PyMsg → List Char
  | .notDict => []
  | .dict _ c => c.getD []

/-- The check of the validation loop of `generate_report`:
`isinstance(msg, dict) and "role" in msg and "content" in msg`. -/
def validMsg : PyMsg → Bool
  | .notDict => false
  | .dict r c => r.isSome && c.isSome

/-- The two input guards of `generate_report`: `not conversation`
(empty list) and the per-element loop.  (`isinstance(conversation, list)`
always holds for the modelled input type.) -/
def validateConversation (conv : List PyMsg) : Bool :=
  !conv.isEmpty && conv.all validMsg

/-- The fixed instruction block of the prompt f-string, from `You are` up to
(and excluding) `Transcript:`, exactly as in the source (including the
trailing spaces inside the template lines). -/
def promptHeaderCore : List Char := chars "You are an expert interviewer evaluating a candidate based ONLY on the provided transcript. \nFirst, analyze the transcript step-by-step to identify key details about the candidate’s skills, experience, motivations, and potential fit for a software engineering role in an AI research-focused company. \nThen, produce a concise evaluation with EXACTLY the following fields (same names, one space after colon, each on its own line). \nFor fields not explicitly stated (e.g., Strengths, Weaknesses, Job Fit), make reasonable inferences based on your analysis, ensuring they are supported by the transcript. \nBe concise, professional, and avoid fabricating details.\n\nSkills: <text>\nExperience: <text>\nStrengths: <text>\nWeaknesses: <text>\nJob Fit: <text>\nCandidate Rating (1-10): <number>\n\n"

/-- `"\n".join(f"{msg['role'].capitalize()}: {msg['content']}" for msg in conversation)`. -/
def transcriptOf (conv : List PyMsg) : List Char :=
  List.intercalate (chars "\n") (conv.map (fun m => pyCapitalize (msgRole m) ++ chars ": " ++ msgContent m))

/-- The prompt f-string of `get_ai_summary_and_rating`, followed by `.strip()`.
The template is the concatenation of the leading newline, the instruction
block, `Transcript:\n`, the rendered transcript and a final newline. -/
def buildPrompt (conv : List PyMsg) : List Char :=
  pyStrip (chars "\n" ++ (promptHeaderCore ++ (chars "Transcript:\n" ++ transcriptOf conv ++ chars "\n")))

/-- The five schema field names, in the order of the `fields` list. -/
def fieldsList : List (List Char) :=
  [chars "Skills", chars "Experience", chars "Strengths", chars "Weaknesses", chars "Job Fit"]

/-- The labels of the lookahead alternation
`(?=\n(?:Skills|Experience|Strengths|Weaknesses|Job Fit|Candidate Rating(?:\s*\(1-10\))?))`.
For the lookahead to succeed only the mandatory part of each alternative
matters, so `Candidate Rating` stands for its alternative. -/
def boundaryLabels : List (List Char) :=
  [chars "Skills", chars "Experience", chars "Strengths", chars "Weaknesses", chars "Job Fit",
   chars "Candidate Rating"]

/-- The capture of `(.*?)` ends here: either end-of-text (`\Z`) or a newline
followed (case-insensitively) by one of the boundary labels. -/
def boundaryHere : List Char → Bool
  | [] => true
  | '\n' :: rest => boundaryLabels.any (fun l => (stripPrefixCI l rest).isSome)
  | _ :: _ => false

/-- The lazy `(.*?)` with the lookahead: consume characters until the first
position where `boundaryHere` holds (the `\Z` alternative guarantees success
at end-of-text, so the match never fails). -/
def captureUntil : List Char → List Char
  | [] => []
  | c :: cs => if boundaryHere (c :: cs) then [] else c :: captureUntil cs

/-- `{field}\s*:\s*` matched at the front of `s`: the field name
(case-insensitively), greedy whitespace, a colon, then greedy whitespace.
Returns the suffix at which the capture group starts. -/
def matchFieldColon (field s : List Char) : Option (List Char) :=
  match stripPrefixCI field s with
  | none => none
  | some r =>
    match dropSpaces r with
    | ':' :: r2 => some (dropSpaces r2)
    | _ => none

/-- `re.search` of the field pattern: leftmost position where
`matchFieldColon` succeeds. -/
def searchField (field : List Char) : List Char → Option (List Char)
  | [] => none
  | c :: t =>
    match matchFieldColon field (c :: t) with
    | some r => some r
    | none => searchField field t

/-- The per-field default strings of the `else` branch of the parsing loop
(`if field == "Skills": ... elif ...`).  The chain covers exactly the five
fields the loop ranges over; the unreachable fall-through is mapped to `[]`. -/
def fieldDefault (f : List Char) : List Char :=
  if f = chars "Skills" then
    chars "Proficiency in Python, Go, and JavaScript, as mentioned in the transcript."
  else if f = chars "Experience" then
    chars "5 years of backend development experience, as stated in the transcript."
  else if f = chars "Strengths" then
    chars "Strong backend development skills and familiarity with AI-relevant languages like Python."
  else if f = chars "Weaknesses" then
    chars "Limited information on frontend development or other specialized skills."
  else if f = chars "Job Fit" then
    chars "Good alignment with AI research-focused roles due to interest in AI and open-source contributions."
  else []

/-- `sections[field]`: the captured group stripped, if the pattern matched
and the stripped capture is non-empty (`if m and m.group(1).strip():`),
otherwise the per-field default. -/
def sectionValue (f result : List Char) : List Char :=
  match searchField f result with
  | some rest =>
    if (pyStrip (captureUntil rest)).isEmpty then fieldDefault f else pyStrip (captureUntil rest)
  | none => fieldDefault f

/-- The rating in the source is `"N/A"` (a string) or an `int`;
`na` models the string sentinel. -/
inductive Rating
  | na
  | score (n : Nat)
deriving DecidableEq

/-- ASCII digit value. -/
def digitVal (c : Char) : Nat := c.toNat - '0'.toNat

/-- `\s*:\s*(\d{1,2})` matched at the front of `s`: greedy whitespace, colon,
greedy whitespace, then one or two digits (greedy).  Returns `int(group)`. -/
def matchColonDigits (s : List Char) : Option Nat :=
  match dropSpaces s with
  | ':' :: r2 =>
    match dropSpaces r2 with
    | d1 :: rest =>
      if d1.isDigit then
        match rest with
        | d2 :: _ => if d2.isDigit then some (10 * digitVal d1 + digitVal d2) else some (digitVal d1)
        | [] => some (digitVal d1)
      else none
    | [] => none
  | _ => none

/-- `Candidate Rating(?:\s*\(1-10\))?\s*:\s*(\d{1,2})` matched at the front
of `s` (case-insensitive).  The optional group is tried greedily first; on
failure of the remainder the engine backtracks to the empty alternative. -/
def matchRatingAt (s : List Char) : Option Nat :=
  match stripPrefixCI (chars "Candidate Rating") s with
  | none => none
  | some r =>
    match stripPrefixCI (chars "(1-10)") (dropSpaces r) with
    | some r2 =>
      match matchColonDigits r2 with
      | some v => some v
      | none => matchColonDigits r
    | none => matchColonDigits r

/-- `re.search` of the rating pattern: leftmost match. -/
def searchRating : List Char → Option Nat
  | [] => none
  | c :: t =>
    match matchRatingAt (c :: t) with
    | some v => some v
    | none => searchRating t

/-- `\s*/\s*10` matched at the front of `s`. -/
def matchSlash10 (s : List Char) : Bool :=
  match dropSpaces s with
  | '/' :: r =>
    match dropSpaces r with
    | '1' :: '0' :: _ => true
    | _ => false
  | _ => false

/-- `(\d{1,2})\s*/\s*10` matched at the front of `s`: two digits are tried
greedily, backtracking to one digit if the tail fails. -/
def matchSlashAt (s : List Char) : Option Nat :=
  match s with
  | [] => none
  | d1 :: rest =>
    if d1.isDigit then
      match rest with
      | d2 :: rest2 =>
        if d2.isDigit then
          if matchSlash10 rest2 then some (10 * digitVal d1 + digitVal d2)
          else if matchSlash10 rest then some (digitVal d1)
          else none
        else if matchSlash10 rest then some (digitVal d1) else none
      | [] => none
    else none

/-- `re.search` of the `N/10` fallback pattern: leftmost match. -/
def searchSlash10 : List Char → Option Nat
  | [] => none
  | c :: t =>
    match matchSlashAt (c :: t) with
    | some v => some v
    | none => searchSlash10 t

/-- The rating logic of `get_ai_summary_and_rating`: the primary pattern, the
`N/10` fallback only when the primary found no match at all, the `[1,10]`
range check applied to the first match, `"N/A"` when a match is out of range,
and the default `7` only when neither pattern matched anywhere. -/
def parseRating (result : List Char) : Rating :=
  match searchRating result with
  | some v => if 1 ≤ v ∧ v ≤ 10 then Rating.score v else Rating.na
  | none =>
    match searchSlash10 result with
    | some v => if 1 ≤ v ∧ v ≤ 10 then Rating.score v else Rating.na
    | none => Rating.score 7

/-- The `fallback` list of the `except` branch, joined with `"\n"`. -/
def fallbackSummary : List Char :=
  List.intercalate (chars "\n")
    [chars "Skills: Proficiency in Python, Go, and JavaScript, as mentioned in the transcript.",
     chars "Experience: 5 years of backend development experience, as stated in the transcript.",
     chars "Strengths: Strong backend development skills and familiarity with AI-relevant languages like Python.",
     chars "Weaknesses: Limited information on frontend development or other specialized skills.",
     chars "Job Fit: Good alignment with AI research-focused roles due to interest in AI and open-source contributions."]

/-- `get_ai_summary_and_rating`: build the prompt, call the generation
capability; on success strip the raw text, extract the five sections and the
rating; on any generation exception return the fixed fallback summary and
the default rating `7`. -/
def get_ai_summary_and_rating (gen : List Char → Except Unit (List Char))
    (conversation : List PyMsg) : List Char × Rating :=
  match gen (buildPrompt conversation) with
  | Except.error _ => (fallbackSummary, Rating.score 7)
  | Except.ok raw =>
    (List.intercalate (chars "\n")
       (fieldsList.map (fun f => f ++ chars ": " ++ sectionValue f (pyStrip raw))),
     parseRating (pyStrip raw))

/-- One rendering element appended to `content` (reportlab is the opaque
rendering collaborator; styles and layout config are not modelled). -/
inductive Block
  | para (text : List Char)
  | spacer (w h : Nat)
  | table (rows : List (List Char × List Char))
  | chart (ctype : List Char) (labels : List (List Char)) (values : List Nat)
deriving DecidableEq

/-- Python `line.split(": ", 1)`: split at the first occurrence of the
separator; `none` when the separator does not occur (in which case the
source's two-target unpacking raises `ValueError`). -/
def splitOnce (sep : List Char) : List Char → Option (List Char × List Char)
  | [] => none
  | c :: t =>
    match dropLit sep (c :: t) with
    | some rest => some ([], rest)
    | none =>
      match splitOnce sep t with
      | some (a, b) => some (c :: a, b)
      | none => none

/-- Python `str.split(sep)` for a one-character separator (keeps empty parts;
`""` splits to `[""]`). -/
def splitOnChar (sep : Char) : List Char → List (List Char)
  | [] => [[]]
  | c :: t =>
    if c = sep then [] :: splitOnChar sep t
    else
      match splitOnChar sep t with
      | h :: rest => (c :: h) :: rest
      | [] => [[c]]

/-- The table-building loop body over the summary lines: each line must
split at `": "` into a field cell and a details cell; a line without the
separator makes the whole build fail (the unpacking `ValueError`). -/
def rowsOfLines : List (List Char) → Option (List (List Char × List Char))
  | [] => some []
  | l :: ls =>
    match splitOnce (chars ": ") l with
    | none => none
    | some (f, d) =>
      match rowsOfLines ls with
      | none => none
      | some rs => some ((f, d) :: rs)

/-- `f"{rating} / 10"`. -/
def ratingCell (r : Rating) : List Char :=
  (match r with
   | Rating.na => chars "N/A"
   | Rating.score n => chars (Nat.repr n)) ++ chars " / 10"

/-- `table_data`: the header row, one row per summary line, and the final
`Candidate Rating` row; `none` models the `ValueError` escape. -/
def tableRows (summary : List Char) (rating : Rating) : Option (List (List Char × List Char)) :=
  match rowsOfLines (splitOnChar '\n' summary) with
  | none => none
  | some rs => some ((chars "Field", chars "Details") :: (rs ++ [(chars "Candidate Rating", ratingCell rating)]))

/-- The fixed recommendations paragraph (the three source literals
concatenate to this single string). -/
def recommendationsText : List Char :=
  chars "Consider assessing the candidate’s frontend development skills in a follow-up interview, as the transcript focuses primarily on backend experience. Evaluate their experience with AI-specific frameworks (e.g., TensorFlow, PyTorch) to confirm alignment with company goals."

/-- The per-turn blocks of the transcript-breakdown loop:
`Paragraph(f"<b>{role}:</b> {text}")` followed by `Spacer(1, 10)`. -/
def breakdownBlocks (conv : List PyMsg) : List Block :=
  conv.flatMap (fun m =>
    [Block.para (chars "<b>" ++ pyCapitalize (bdRole m) ++ chars ":</b> " ++ bdContent m),
     Block.spacer 1 10])

/-- The full `content` list of `generate_report`, in append order: title,
summary heading and table, chart section, recommendations, and the
transcript breakdown. -/
def assembleContent (rows : List (List Char × List Char)) (conv : List PyMsg) : List Block :=
  [Block.para (chars "Interview Report"),
   Block.spacer 1 20,
   Block.para (chars "<b>Summary:</b>"),
   Block.table rows,
   Block.spacer 1 20,
   Block.para (chars "<b>Skill Proficiency (Inferred):</b>"),
   Block.chart (chars "bar") [chars "Python", chars "Go", chars "JavaScript"] [8, 8, 6],
   Block.spacer 1 20,
   Block.para (chars "<b>Recommendations:</b>"),
   Block.para recommendationsText,
   Block.spacer 1 20,
   Block.para (chars "<b>Transcript Breakdown:</b>")]
  ++ breakdownBlocks conv

/-- The outcome of one `generate_report` run: early return on invalid input
(no document), an unhandled exception (the `ValueError` of the table loop),
or a built document. -/
inductive ReportOutcome
  | invalidInput
  | crash
  | doc (content : List Block)
deriving DecidableEq

/-- `generate_report`: validate the conversation (early return, before any
generation), obtain summary and rating, build the table rows (a summary line
without `": "` raises), and assemble the document handed to `doc.build`. -/
def generate_report (gen : List Char → Except Unit (List Char))
    (conversation : List PyMsg) : ReportOutcome :=
  if validateConversation conversation then
    match tableRows (get_ai_summary_and_rating gen conversation).1
        (get_ai_summary_and_rating gen conversation).2 with
    | none => ReportOutcome.crash
    | some rows => ReportOutcome.doc (assembleContent rows conversation)
  else ReportOutcome.invalidInput

/-- `True` exactly on the `doc` outcome. -/
def producesDoc : ReportOutcome → Bool
  | ReportOutcome.doc _ => true
  | _ => false

/-- `True` exactly on table blocks. -/
def blockIsTable : Block → Bool
  | Block.table _ => true
  | _ => false

/-- A generation adapter that always raises. -/
def failGen : List Char → Except Unit (List Char) := fun _ => Except.error ()

/-- A generation adapter returning a fixed raw text. -/
def constGen (s : String) : List Char → Except Unit (List Char) := fun _ => Except.ok (chars s)

/-- The table rows produced from the fallback summary with the default
rating `7`: the header row, the five default field rows, the rating row. -/
def defaultRows : List (List Char × List Char) :=
  [(chars "Field", chars "Details"),
   (chars "Skills", fieldDefault (chars "Skills")),
   (chars "Experience", fieldDefault (chars "Experience")),
   (chars "Strengths", fieldDefault (chars "Strengths")),
   (chars "Weaknesses", fieldDefault (chars "Weaknesses")),
   (chars "Job Fit", fieldDefault (chars "Job Fit")),
   (chars "Candidate Rating", chars "7 / 10")]

/-! ## Helper lemmas -/

theorem dropWhile_ne_nil_of_mem {p : Char → Bool} {l : List Char} {c : Char}
    (hc : c ∈ l) (hp : p c = false) : l.dropWhile p ≠ [] := by
  induction l with
  | nil => cases hc
  | cons a t ih =>
    rw [List.dropWhile_cons]
    cases hpa : p a with
    | true =>
      simp only [if_pos rfl]
      rcases List.mem_cons.mp hc with h | h
      · subst h; rw [hp] at hpa; cases hpa
      · exact ih h
    | false => simp

theorem dropWhile_append_of_ne_nil {p : Char → Bool} {l₁ l₂ : List Char}
    (h : l₁.dropWhile p ≠ []) : (l₁ ++ l₂).dropWhile p = l₁.dropWhile p ++ l₂ := by
  cases hd : l₁.dropWhile p with
  | nil => exact absurd hd h
  | cons a t => rw [List.dropWhile_append, hd]; simp

theorem pyStripRight_append {A B : List Char} (c : Char) (hc : c ∈ B)
    (hcs : pySpace c = false) : pyStripRight (A ++ B) = A ++ pyStripRight B := by
  unfold pyStripRight
  rw [List.reverse_append,
    dropWhile_append_of_ne_nil (dropWhile_ne_nil_of_mem (List.mem_reverse.mpr hc) hcs),
    List.reverse_append, List.reverse_reverse]

/-- The prompt decomposes as the literal instruction block followed by the
right-stripped transcript section. -/
theorem buildPrompt_eq (conv : List PyMsg) :
    buildPrompt conv =
      promptHeaderCore ++ pyStripRight (chars "Transcript:\n" ++ transcriptOf conv ++ chars "\n") := by
  unfold buildPrompt pyStrip pyStripLeft
  rw [show chars "\n" = ['\n'] from rfl, List.singleton_append, List.dropWhile_cons]
  rw [if_pos (show pySpace '\n' = true from rfl)]
  rw [dropWhile_append_of_ne_nil (by decide),
    show promptHeaderCore.dropWhile pySpace = promptHeaderCore from by decide]
  exact pyStripRight_append ':'
    (List.mem_append.mpr (Or.inl (List.mem_append.mpr (Or.inl (by decide))))) (by decide)

theorem dropLit_append {pat A B r : List Char} (h : dropLit pat A = some r) :
    dropLit pat (A ++ B) = some (r ++ B) := by
  induction pat generalizing A r with
  | nil =>
    cases A with
    | nil => cases h; rfl
    | cons a t => cases h; rfl
  | cons p ps ih =>
    cases A with
    | nil => cases h
    | cons a t =>
      simp only [dropLit] at h
      by_cases hpa : p = a
      · rw [if_pos hpa] at h
        rw [List.cons_append]
        simp only [dropLit, if_pos hpa]
        exact ih h
      · rw [if_neg hpa] at h
        exact Option.noConfusion h

theorem hasSeg_nil_pat (l : List Char) : hasSeg [] l = true := by
  cases l <;> simp [hasSeg, dropLit]

theorem hasSeg_append_left {pat A : List Char} (B : List Char)
    (h : hasSeg pat A = true) : hasSeg pat (A ++ B) = true := by
  induction A with
  | nil =>
    have hp : pat = [] := by
      cases pat with
      | nil => rfl
      | cons p ps => simp [hasSeg] at h
    subst hp
    exact hasSeg_nil_pat B
  | cons a t ih =>
    rw [List.cons_append]
    simp only [hasSeg, Bool.or_eq_true] at h ⊢
    rcases h with h | h
    · left
      rcases Option.isSome_iff_exists.mp h with ⟨r, hr⟩
      have h2 := @dropLit_append pat (a :: t) B r hr
      rw [List.cons_append] at h2
      rw [h2]
      rfl
    · right; exact ih h

theorem breakdownBlocks_length (conv : List PyMsg) :
    (breakdownBlocks conv).length = 2 * conv.length := by
  induction conv with
  | nil => rfl
  | cons m t ih =>
    unfold breakdownBlocks at ih ⊢
    rw [List.flatMap_cons]
    simp only [List.length_append, List.length_cons, List.length_nil]
    omega

/-- Inversion of a successful run: the input validated, the table build
succeeded, and the content is the assembled section list. -/
theorem generate_report_doc_inv {gen : List Char → Except Unit (List Char)}
    {conv : List PyMsg} {content : List Block}
    (h : generate_report gen conv = ReportOutcome.doc content) :
    ∃ rows, tableRows (get_ai_summary_and_rating gen conv).1
        (get_ai_summary_and_rating gen conv).2 = some rows ∧
      content = assembleContent rows conv := by
  unfold generate_report at h
  split at h
  · split at h
    · exact ReportOutcome.noConfusion h
    · rename_i rows heq
      injection h with h
      exact ⟨rows, heq, h.symm⟩
  · exact ReportOutcome.noConfusion h

/-! ## Claim theorems -/

/-- C1 (code bug evidence): the pipeline is not total.  For the valid
one-turn transcript `[{"role": "a", "content": "hi"}]` and the raw
generation text `"Skills: A\nB"` (an extracted field span containing a
newline), the summary line `"B"` has no `": "` separator, so the table
loop's two-target unpacking raises an unhandled `ValueError` instead of
producing a document. -/
theorem claim_C1_crash :
    generate_report (constGen "Skills: A\nB")
      [PyMsg.dict (some (chars "a")) (some (chars "hi"))] = ReportOutcome.crash := by
  decide

/-- C2 counterexample: for raw text `Candidate Rating (1-10): 0` (and for
`: 11`) the matched integer is rejected, but the returned rating is the
sentinel `"N/A"`, not the fixed default rating `7` the claim asserts. -/
theorem claim_C2_counterexample :
    (get_ai_summary_and_rating (constGen "Candidate Rating (1-10): 0")
        [PyMsg.dict (some (chars "a")) (some (chars "hi"))]).2 = Rating.na ∧
    (get_ai_summary_and_rating (constGen "Candidate Rating (1-10): 11")
        [PyMsg.dict (some (chars "a")) (some (chars "hi"))]).2 = Rating.na ∧
    Rating.na ≠ Rating.score 7 := by
  decide

/-- C2 (amended): `: 0` and `: 11` are rejected as out of `[1,10]`, but the
returned rating is then the sentinel `"N/A"`, not the default; `: 1` and
`: 10` are accepted as `1` and `10`; the default rating `7` is returned only
when neither rating pattern matches anywhere in the text. -/
theorem claim_C2_amended :
    (get_ai_summary_and_rating (constGen "Candidate Rating (1-10): 0")
        [PyMsg.dict (some (chars "a")) (some (chars "hi"))]).2 = Rating.na ∧
    (get_ai_summary_and_rating (constGen "Candidate Rating (1-10): 11")
        [PyMsg.dict (some (chars "a")) (some (chars "hi"))]).2 = Rating.na ∧
    (get_ai_summary_and_rating (constGen "Candidate Rating (1-10): 1")
        [PyMsg.dict (some (chars "a")) (some (chars "hi"))]).2 = Rating.score 1 ∧
    (get_ai_summary_and_rating (constGen "Candidate Rating (1-10): 10")
        [PyMsg.dict (some (chars "a")) (some (chars "hi"))]).2 = Rating.score 10 ∧
    (get_ai_summary_and_rating (constGen "no rating pattern here")
        [PyMsg.dict (some (chars "a")) (some (chars "hi"))]).2 = Rating.score 7 := by
  decide

/-- C3 counterexample: an element whose `role` and `content` values are both
the empty string passes validation (only key presence is checked), and the
pipeline goes on to produce a document rather than rejecting the input. -/
theorem claim_C3_counterexample :
    validMsg (PyMsg.dict (some (chars "")) (some (chars ""))) = true ∧
    producesDoc (generate_report failGen [PyMsg.dict (some (chars "")) (some (chars ""))]) = true := by
  decide

/-- C3 (amended): the run is rejected (no document, `generate_report`
returns early) exactly when the list is empty or some element is not a dict
carrying both the `role` and `content` keys; the rejection is independent of
the generation adapter (no generation call influences it).  Elements whose
key values are empty strings are accepted. -/
theorem claim_C3_amended : ∀ (gen gen' : List Char → Except Unit (List Char)) (conv : List PyMsg),
    (generate_report gen conv = ReportOutcome.invalidInput ↔ validateConversation conv = false) ∧
    (validateConversation conv = false → generate_report gen conv = generate_report gen' conv) := by
  intro gen gen' conv
  cases hv : validateConversation conv with
  | true =>
    constructor
    · constructor
      · intro h
        exfalso
        unfold generate_report at h
        rw [if_pos hv] at h
        split at h
        · exact ReportOutcome.noConfusion h
        · exact ReportOutcome.noConfusion h
      · intro h; cases h
    · intro h; cases h
  | false =>
    have h1 : generate_report gen conv = ReportOutcome.invalidInput := by
      unfold generate_report
      rw [hv]
      rfl
    have h2 : generate_report gen' conv = ReportOutcome.invalidInput := by
      unfold generate_report
      rw [hv]
      rfl
    exact ⟨⟨fun _ => rfl, fun _ => h1⟩, fun _ => h1.trans h2.symm⟩

/-- C3 witness: concrete use of the amended theorem at an invalid input. -/
theorem claim_C3_amended_witness :
    generate_report failGen [PyMsg.notDict] = generate_report (constGen "x") [PyMsg.notDict] :=
  (claim_C3_amended failGen (constGen "x") [PyMsg.notDict]).2 (by decide)

/-- C4: if the generation capability raises, `get_ai_summary_and_rating`
returns the fixed fallback summary (which equals the join of the five
per-field default strings) with the default rating `7`, and the pipeline
still assembles a document. -/
theorem claim_C4_fallback : ∀ (gen : List Char → Except Unit (List Char)) (conv : List PyMsg),
    validateConversation conv = true → gen (buildPrompt conv) = Except.error () →
    get_ai_summary_and_rating gen conv = (fallbackSummary, Rating.score 7) ∧
    generate_report gen conv = ReportOutcome.doc (assembleContent defaultRows conv) ∧
    fallbackSummary =
      List.intercalate (chars "\n") (fieldsList.map (fun f => f ++ chars ": " ++ fieldDefault f)) := by
  intro gen conv hv hg
  have hget : get_ai_summary_and_rating gen conv = (fallbackSummary, Rating.score 7) := by
    unfold get_ai_summary_and_rating
    rw [hg]
  refine ⟨hget, ?_, by decide⟩
  unfold generate_report
  rw [if_pos hv, hget]
  rfl

/-- C4 witness: the fallback path at a concrete valid transcript and an
always-raising generation adapter. -/
theorem claim_C4_witness :
    get_ai_summary_and_rating failGen [PyMsg.dict (some (chars "a")) (some (chars "hi"))] =
      (fallbackSummary, Rating.score 7) ∧
    generate_report failGen [PyMsg.dict (some (chars "a")) (some (chars "hi"))] =
      ReportOutcome.doc (assembleContent defaultRows [PyMsg.dict (some (chars "a")) (some (chars "hi"))]) ∧
    fallbackSummary =
      List.intercalate (chars "\n") (fieldsList.map (fun f => f ++ chars ": " ++ fieldDefault f)) :=
  claim_C4_fallback failGen [PyMsg.dict (some (chars "a")) (some (chars "hi"))] (by decide) rfl

/-- C5: for every raw response text, each of the five schema fields resolves
to a non-empty value; if the field pattern does not match, or the captured
span is empty after trimming, the value is the fixed per-field default;
otherwise it is the trimmed captured span. -/
theorem claim_C5_schema : ∀ (result f : List Char), f ∈ fieldsList →
    sectionValue f result ≠ [] ∧
    (searchField f result = none → sectionValue f result = fieldDefault f) ∧
    (∀ rest, searchField f result = some rest → pyStrip (captureUntil rest) = [] →
      sectionValue f result = fieldDefault f) ∧
    (∀ rest, searchField f result = some rest → pyStrip (captureUntil rest) ≠ [] →
      sectionValue f result = pyStrip (captureUntil rest)) := by
  intro result f hf
  have hdef : fieldDefault f ≠ [] := by
    simp only [fieldsList, List.mem_cons, List.not_mem_nil, or_false] at hf
    rcases hf with rfl | rfl | rfl | rfl | rfl <;> decide
  cases hs : searchField f result with
  | none =>
    refine ⟨?_, fun _ => ?_, fun rest hrest => ?_, fun rest hrest => ?_⟩
    · unfold sectionValue
      rw [hs]
      exact hdef
    · unfold sectionValue
      rw [hs]
    · exact fun _ => Option.noConfusion hrest
    · exact fun _ => Option.noConfusion hrest
  | some rest =>
    have hred : sectionValue f result =
        if (pyStrip (captureUntil rest)).isEmpty = true then fieldDefault f
        else pyStrip (captureUntil rest) := by
      unfold sectionValue
      rw [hs]
    cases hv : pyStrip (captureUntil rest) with
    | nil =>
      have hval : sectionValue f result = fieldDefault f := by
        rw [hred, hv]
        rfl
      refine ⟨hval ▸ hdef, fun h => Option.noConfusion h, ?_, ?_⟩
      · intro rest' h1 _
        exact hval
      · intro rest' h1 h2
        injection h1 with h1
        subst h1
        exact absurd hv h2
    | cons a t =>
      have hval : sectionValue f result = a :: t := by
        rw [hred, hv]
        rfl
      refine ⟨hval ▸ List.cons_ne_nil a t, fun h => Option.noConfusion h, ?_, ?_⟩
      · intro rest' h1 h2
        injection h1 with h1
        subst h1
        rw [hv] at h2
        exact absurd h2 (List.cons_ne_nil a t)
      · intro rest' h1 _
        injection h1 with h1
        subst h1
        rw [hv]
        exact hval

/-- C5 witness: the empty raw text takes the default for `Skills`, and the
value is non-empty. -/
theorem claim_C5_witness :
    sectionValue (chars "Skills") [] ≠ [] ∧
    sectionValue (chars "Skills") [] = fieldDefault (chars "Skills") :=
  ⟨(claim_C5_schema [] (chars "Skills") (by decide)).1,
   (claim_C5_schema [] (chars "Skills") (by decide)).2.1 rfl⟩

/-- C6: extracting `Skills` from `"Skills: A\nExperience: B"` yields exactly
`"A"`; in general the captured span is the prefix of the remaining text up
to the first position where a boundary holds (a newline followed by a field
label or the rating label, or end-of-text), and no earlier position is a
boundary. -/
theorem claim_C6_precedence :
    sectionValue (chars "Skills") (chars "Skills: A\nExperience: B") = chars "A" ∧
    ∀ s : List Char,
      captureUntil s = List.take (captureUntil s).length s ∧
      boundaryHere (List.drop (captureUntil s).length s) = true ∧
      ∀ i, i < (captureUntil s).length → boundaryHere (List.drop i s) = false := by
  refine ⟨by decide, ?_⟩
  intro s
  induction s with
  | nil => exact ⟨rfl, rfl, fun i hi => absurd hi (Nat.not_lt_zero i)⟩
  | cons c cs ih =>
    cases hb : boundaryHere (c :: cs) with
    | true =>
      have hcap : captureUntil (c :: cs) = [] := by
        simp only [captureUntil, hb]
        rfl
      rw [hcap]
      exact ⟨rfl, hb, fun i hi => absurd hi (Nat.not_lt_zero i)⟩
    | false =>
      have hcap : captureUntil (c :: cs) = c :: captureUntil cs := by
        simp only [captureUntil, hb]
        rfl
      obtain ⟨ih1, ih2, ih3⟩ := ih
      rw [hcap]
      refine ⟨?_, ?_, ?_⟩
      · rw [List.length_cons, List.take_succ_cons]
        exact congrArg (List.cons c) ih1
      · rw [List.length_cons, List.drop_succ_cons]
        exact ih2
      · intro i hi
        cases i with
        | zero => exact hb
        | succ j =>
          rw [List.drop_succ_cons]
          rw [List.length_cons] at hi
          exact ih3 j (Nat.lt_of_succ_lt_succ hi)

/-- C6 witness: concrete uses of both parts. -/
theorem claim_C6_witness :
    sectionValue (chars "Skills") (chars "Skills: A\nExperience: B") = chars "A" ∧
    boundaryHere (List.drop 0 (chars "x")) = false :=
  ⟨claim_C6_precedence.1, (claim_C6_precedence.2 (chars "x")).2.2 0 (by decide)⟩

/-- C7: every assembled document ends with the transcript-breakdown
section: after the eleven fixed leading blocks comes the breakdown heading
followed by, per turn in original order, a paragraph with the capitalized
role and the verbatim content, then a spacer — 2·N blocks for N turns. -/
theorem claim_C7_roundtrip : ∀ (gen : List Char → Except Unit (List Char))
    (conv : List PyMsg) (content : List Block),
    generate_report gen conv = ReportOutcome.doc content →
    List.drop 11 content = Block.para (chars "<b>Transcript Breakdown:</b>") :: breakdownBlocks conv ∧
    breakdownBlocks conv = conv.flatMap (fun m =>
      [Block.para (chars "<b>" ++ pyCapitalize (bdRole m) ++ chars ":</b> " ++ bdContent m),
       Block.spacer 1 10]) ∧
    (breakdownBlocks conv).length = 2 * conv.length := by
  intro gen conv content h
  obtain ⟨rows, _, hc⟩ := generate_report_doc_inv h
  subst hc
  exact ⟨rfl, rfl, breakdownBlocks_length conv⟩

/-- C7 witness: the round-trip facts at a concrete one-turn transcript. -/
theorem claim_C7_witness :
    List.drop 11 (assembleContent defaultRows [PyMsg.dict (some (chars "a")) (some (chars "hi"))]) =
      Block.para (chars "<b>Transcript Breakdown:</b>") ::
        breakdownBlocks [PyMsg.dict (some (chars "a")) (some (chars "hi"))] ∧
    breakdownBlocks [PyMsg.dict (some (chars "a")) (some (chars "hi"))] =
      [PyMsg.dict (some (chars "a")) (some (chars "hi"))].flatMap (fun m =>
        [Block.para (chars "<b>" ++ pyCapitalize (bdRole m) ++ chars ":</b> " ++ bdContent m),
         Block.spacer 1 10]) ∧
    (breakdownBlocks [PyMsg.dict (some (chars "a")) (some (chars "hi"))]).length =
      2 * [PyMsg.dict (some (chars "a")) (some (chars "hi"))].length :=
  claim_C7_roundtrip failGen [PyMsg.dict (some (chars "a")) (some (chars "hi"))]
    (assembleContent defaultRows [PyMsg.dict (some (chars "a")) (some (chars "hi"))]) (by decide)

/-- C8: for every transcript the prompt is the fixed instruction block
(which embeds the five field labels and the `Candidate Rating (1-10)`
label) followed by the right-stripped transcript section; each turn is
rendered `<Role capitalized>: <content>`, joined by newlines; the empty
transcript yields the well-formed label-only prompt. -/
theorem claim_C8_prompt : ∀ conv : List PyMsg,
    buildPrompt conv =
      promptHeaderCore ++ pyStripRight (chars "Transcript:\n" ++ transcriptOf conv ++ chars "\n") ∧
    transcriptOf conv = List.intercalate (chars "\n")
      (conv.map (fun m => pyCapitalize (msgRole m) ++ chars ": " ++ msgContent m)) ∧
    hasSeg (chars "Skills: <text>") (buildPrompt conv) = true ∧
    hasSeg (chars "Experience: <text>") (buildPrompt conv) = true ∧
    hasSeg (chars "Strengths: <text>") (buildPrompt conv) = true ∧
    hasSeg (chars "Weaknesses: <text>") (buildPrompt conv) = true ∧
    hasSeg (chars "Job Fit: <text>") (buildPrompt conv) = true ∧
    hasSeg (chars "Candidate Rating (1-10): <number>") (buildPrompt conv) = true ∧
    buildPrompt [] = promptHeaderCore ++ chars "Transcript:" := by
  intro conv
  have hb := buildPrompt_eq conv
  have hseg : ∀ pat : List Char, hasSeg pat promptHeaderCore = true →
      hasSeg pat (buildPrompt conv) = true := by
    intro pat hp
    rw [hb]
    exact hasSeg_append_left _ hp
  refine ⟨hb, rfl, hseg _ (by decide), hseg _ (by decide), hseg _ (by decide),
    hseg _ (by decide), hseg _ (by decide), hseg _ (by decide), ?_⟩
  rw [buildPrompt_eq []]
  exact congrArg (promptHeaderCore ++ ·) (by decide)

/-- C9: the extraction stage is a pure function of the raw generation
outcome: any two runs whose generation results coincide produce identical
summary fields and identical rating, whatever the transcripts and adapters
were. -/
theorem claim_C9_pure : ∀ (gen gen' : List Char → Except Unit (List Char))
    (conv conv' : List PyMsg),
    gen (buildPrompt conv) = gen' (buildPrompt conv') →
    get_ai_summary_and_rating gen conv = get_ai_summary_and_rating gen' conv' := by
  intro gen gen' conv conv' h
  unfold get_ai_summary_and_rating
  rw [h]

/-- C9 witness: two runs with the same generation outcome agree. -/
theorem claim_C9_witness :
    get_ai_summary_and_rating failGen [] = get_ai_summary_and_rating failGen [PyMsg.notDict] :=
  claim_C9_pure failGen failGen [] [PyMsg.notDict] rfl

/-- C10: every assembled document carries, between the summary table
(position 3) and the recommendations paragraph (positions 8–9), the fixed
chart section whose bar-chart payload is the hard-coded constant — labels
Python, Go, JavaScript with values 8, 8, 6 — identically for every
transcript and every generation outcome. -/
theorem claim_C10_chart : ∀ (gen : List Char → Except Unit (List Char))
    (conv : List PyMsg) (content : List Block),
    generate_report gen conv = ReportOutcome.doc content →
    List.take 3 (List.drop 5 content) =
      [Block.para (chars "<b>Skill Proficiency (Inferred):</b>"),
       Block.chart (chars "bar") [chars "Python", chars "Go", chars "JavaScript"] [8, 8, 6],
       Block.spacer 1 20] ∧
    blockIsTable (List.getD content 3 (Block.spacer 0 0)) = true ∧
    List.take 2 (List.drop 8 content) =
      [Block.para (chars "<b>Recommendations:</b>"), Block.para recommendationsText] := by
  intro gen conv content h
  obtain ⟨rows, _, hc⟩ := generate_report_doc_inv h
  subst hc
  exact ⟨rfl, rfl, rfl⟩

/-- C10 witness: the chart section at a concrete run. -/
theorem claim_C10_witness :
    List.take 3 (List.drop 5 (assembleContent defaultRows [PyMsg.dict (some (chars "b")) (some (chars "yo"))])) =
      [Block.para (chars "<b>Skill Proficiency (Inferred):</b>"),
       Block.chart (chars "bar") [chars "Python", chars "Go", chars "JavaScript"] [8, 8, 6],
       Block.spacer 1 20] ∧
    blockIsTable (List.getD (assembleContent defaultRows [PyMsg.dict (some (chars "b")) (some (chars "yo"))]) 3 (Block.spacer 0 0)) = true ∧
    List.take 2 (List.drop 8 (assembleContent defaultRows [PyMsg.dict (some (chars "b")) (some (chars "yo"))])) =
      [Block.para (chars "<b>Recommendations:</b>"), Block.para recommendationsText] :=
  claim_C10_chart failGen [PyMsg.dict (some (chars "b")) (some (chars "yo"))]
    (assembleContent defaultRows [PyMsg.dict (some (chars "b")) (some (chars "yo"))]) (by decide)

end GenReport
